import Mathlib

/-!
Shallow embedding of the script-detection / OCR-language-selection /
transliteration-resolution core of `src/app.py` (SignTranslation).

Python strings are modelled as lists of Unicode code points (`PyStr`).
The external OCR engine (pytesseract) and transliteration engine
(aksharamukha) are modelled as injected behaviours: an `OcrBackend`
records what `image_to_string` returns (or raises) for the image at hand,
and the transliteration call is recorded as the argument triple actually
delegated.  A raised-and-uncaught Python exception (in particular the
`ValueError` produced by unpacking a 4-tuple into 5 targets) is modelled
by a dedicated `pyError` constructor, distinct from the designed
`{"ok": False, ...}` error dictionaries (`err`).
-/

namespace SignTranslation

/-- A Python string, as its list of Unicode code points. -/
abbrev PyStr := List Nat

/-- Code points stripped by `str.strip()` (ASCII and Latin-1 whitespace;
the full Unicode white-space set is larger, but the extra code points are
irrelevant to every property proved below). -/
def isSpace (c : Nat) : Bool :=
  c = 9 || c = 10 || c = 11 || c = 12 || c = 13 ||
  c = 28 || c = 29 || c = 30 || c = 31 || c = 32 || c = 133 || c = 160

/-- Python `s.strip()`: drop leading and trailing whitespace. -/
def strip (s : PyStr) : PyStr :=
  ((s.dropWhile isSpace).reverse.dropWhile isSpace).reverse

/-- `UNICODE_RANGES` from `src/app.py` lines 37-49: each entry is the set of
code-point intervals of a regex character class together with the script
name.  `[A-Za-z]` is the two intervals 65-90 and 97-122. -/
def UNICODE_RANGES : List (List (Nat × Nat) × String) :=
  [([(0x0900, 0x097F)], "Devanagari"),
   ([(0x0980, 0x09FF)], "Bengali"),
   ([(0x0A00, 0x0A7F)], "Gurmukhi"),
   ([(0x0A80, 0x0AFF)], "Gujarati"),
   ([(0x0B00, 0x0B7F)], "Oriya"),
   ([(0x0B80, 0x0BFF)], "Tamil"),
   ([(0x0C00, 0x0C7F)], "Telugu"),
   ([(0x0C80, 0x0CFF)], "Kannada"),
   ([(0x0D00, 0x0D7F)], "Malayalam"),
   ([(0x0D80, 0x0DFF)], "Sinhala"),
   ([(65, 90), (97, 122)], "ISO")]

/-- `TESS_LANG_SUGGEST` from `src/app.py` lines 53-65. -/
def TESS_LANG_SUGGEST : List (String × String) :=
  [("Devanagari", "hin"), ("Bengali", "ben"), ("Gurmukhi", "pan"),
   ("Gujarati", "guj"), ("Oriya", "ori"), ("Tamil", "tam"),
   ("Telugu", "tel"), ("Kannada", "kan"), ("Malayalam", "mal"),
   ("Sinhala", "sin"), ("ISO", "eng")]

/-- Membership of a code point in a union of inclusive intervals
(the regex character class). -/
def inIntervals (ivs : List (Nat × Nat)) (c : Nat) : Bool :=
  ivs.any (fun iv => decide (iv.1 ≤ c) && decide (c ≤ iv.2))

/-- `len(pattern.findall(text))`: the number of characters of `text` in the
character class. -/
def countMatches (ivs : List (Nat × Nat)) (text : PyStr) : Nat :=
  (text.filter (inIntervals ivs)).length

/-- `counts[scriptname] = counts.get(scriptname, 0) + len(found)` on a Python
dict modelled as an insertion-ordered association list: update in place if
the key is present, append otherwise. -/
def dictInsertAdd : List (String × Nat) → String → Nat → List (String × Nat)
  | [], k, v => [(k, v)]
  | (k', v') :: rest, k, v =>
      if k' = k then (k', v' + v) :: rest else (k', v') :: dictInsertAdd rest k v

/-- Loop body of lines 83-87: count the characters matching one range and
fold them into `(counts, total_matched)`; `if found:` skips empty matches. -/
def countStep (text : PyStr) (acc : List (String × Nat) × Nat)
    (pr : List (Nat × Nat) × String) : List (String × Nat) × Nat :=
  let found := countMatches pr.1 text
  if 0 < found then (dictInsertAdd acc.1 pr.2 found, acc.2 + found) else acc

/-- `max(counts.items(), key=lambda kv: kv[1])` over a non-empty dict:
Python's `max` keeps the current best and replaces it only on a strictly
greater key, so the first maximal item wins. -/
def maxByVal (best : String × Nat) : List (String × Nat) → String × Nat
  | [] => best
  | x :: rest => maxByVal (if best.2 < x.2 then x else best) rest

/-- Result of `detect_script_with_confidence`: the two early returns (lines
80 and 89) produce a 4-tuple with no confidence component, the final return
(line 92) a 5-tuple that also carries the confidence. -/
inductive DetectResult where
  | quad (script : String) (topCount totalMatched : Nat)
      (breakdown : List (String × Nat))
  | quint (script : String) (topCount totalMatched : Nat)
      (breakdown : List (String × Nat)) (confidence : ℚ)
deriving DecidableEq

/-- Lines 88-92: pick the winner out of `(counts, total_matched)` and attach
`confidence = top_count / total_matched if total_matched > 0 else 0.0`. -/
def detectCore : List (String × Nat) × Nat → DetectResult
  | ([], _) => DetectResult.quad "ISO" 0 0 []
  | (c :: cs, total_matched) =>
      DetectResult.quint (maxByVal c cs).1 (maxByVal c cs).2 total_matched (c :: cs)
        (if 0 < total_matched then ((maxByVal c cs).2 : ℚ) / (total_matched : ℚ) else 0)

/-- `detect_script_with_confidence` (`src/app.py` lines 72-92). -/
def detect_script_with_confidence (text : PyStr) : DetectResult :=
  if text = [] then DetectResult.quad "ISO" 0 0 []
  else detectCore (UNICODE_RANGES.foldl (countStep text) ([], 0))

/-- `TESS_LANG_SUGGEST.get(detected, "eng")`. -/
def lookupDefault (m : List (String × String)) (k d : String) : String :=
  match List.lookup k m with
  | some v => v
  | none => d

/-- `text.any` over the whole catalog: does the text contain at least one
character of some catalog range? -/
def hasCatalogChar (text : PyStr) : Bool :=
  text.any (fun c => UNICODE_RANGES.any (fun pr => inIntervals pr.1 c))

/-- Behaviour of pytesseract on the one image under consideration:
`image_to_string` is the default-language pass, `image_to_string_lang l`
the pass with explicit `lang=l`; `Except.error` models a raised
exception. -/
structure OcrBackend where
  image_to_string : Except String PyStr
  image_to_string_lang : String → Except String PyStr

/-- Outcome of `ocr_image_with_smart_lang`: a success dictionary, a designed
error dictionary (`ok: False`), or an uncaught Python exception escaping
the function. -/
inductive OcrOutcome where
  | ok (text : PyStr) (used_lang detected_script : String)
      (breakdown : List (String × Nat))
  | err (error : String)
  | pyError (error : String)
deriving DecidableEq

/-- `ocr_image_with_smart_lang` (`src/app.py` lines 95-136).  `none` models
`pytesseract is None`.  The 5-target unpacking on line 113 raises
`ValueError` when `detect_script_with_confidence` returns a 4-tuple. -/
def ocr_image_with_smart_lang (backend : Option OcrBackend) : OcrOutcome :=
  match backend with
  | none => OcrOutcome.err "pytesseract not available. Install pytesseract and Tesseract."
  | some b =>
    match b.image_to_string with
    | Except.error e => OcrOutcome.err ("Tesseract initial OCR failed: " ++ e)
    | Except.ok t0raw =>
      let txt0 := strip t0raw
      match detect_script_with_confidence txt0 with
      | DetectResult.quad _ _ _ _ =>
          OcrOutcome.pyError "ValueError: not enough values to unpack (expected 5, got 4)"
      | DetectResult.quint detected _ _ breakdown _ =>
        let suggested_lang := lookupDefault TESS_LANG_SUGGEST detected "eng"
        if suggested_lang ≠ "eng" then
          match b.image_to_string_lang suggested_lang with
          | Except.error _ => OcrOutcome.ok txt0 "eng" detected breakdown
          | Except.ok t1raw =>
            let txt1 := strip t1raw
            if txt0.length < txt1.length then
              OcrOutcome.ok txt1 suggested_lang detected breakdown
            else if strip txt1 ≠ [] ∧ strip txt0 = [] then
              OcrOutcome.ok txt1 suggested_lang detected breakdown
            else
              OcrOutcome.ok txt0 "eng" detected breakdown
        else OcrOutcome.ok txt0 "eng" detected breakdown

/-- Outcome of `perform_transliteration`: `call` records the argument triple
delegated to the external `aksha_process` backend, `raised` a deliberately
raised `RuntimeError`, `pyError` an uncaught exception. -/
inductive TranslitOutcome where
  | call (src_script tgt_script : String) (text : PyStr)
  | raised (error : String)
  | pyError (error : String)
deriving DecidableEq

/-- `perform_transliteration` (`src/app.py` lines 139-150).  The flag models
`aksha_process is None`; the 5-target unpacking on line 147 raises
`ValueError` when the detection returns a 4-tuple. -/
def perform_transliteration (akshaAvailable : Bool)
    (src_script tgt_script : String) (text : PyStr) : TranslitOutcome :=
  if akshaAvailable = false then
    TranslitOutcome.raised "Aksharamukha is not installed on server. Install with pip install aksharamukha."
  else if src_script = "ISO" then
    match detect_script_with_confidence text with
    | DetectResult.quad _ _ _ _ =>
        TranslitOutcome.pyError "ValueError: not enough values to unpack (expected 5, got 4)"
    | DetectResult.quint detected _ _ _ _ =>
        TranslitOutcome.call (if detected ≠ "ISO" then detected else src_script)
          tgt_script text
  else TranslitOutcome.call src_script tgt_script text

/-- Outcome of the `/api/ocr` route for a valid uploaded image. -/
inductive ApiOcrOutcome where
  | ok (text : PyStr) (used_lang detected_script : String)
      (breakdown : List (String × Nat)) (confidence : ℚ)
  | err (error : String)
  | pyError (error : String)
deriving DecidableEq

/-- `api_ocr` (`src/app.py` lines 466-495) for a request carrying a valid
image, with the upload/decoding plumbing modelled away: it runs the smart
OCR and then re-classifies the final text (line 486, again a 5-target
unpacking) to report a fresh breakdown and confidence. -/
def api_ocr (backend : Option OcrBackend) : ApiOcrOutcome :=
  match backend with
  | none => ApiOcrOutcome.err "pytesseract not installed on server"
  | some b =>
    match ocr_image_with_smart_lang (some b) with
    | OcrOutcome.err e => ApiOcrOutcome.err e
    | OcrOutcome.pyError e => ApiOcrOutcome.pyError e
    | OcrOutcome.ok text used detected _ =>
      match detect_script_with_confidence text with
      | DetectResult.quad _ _ _ _ =>
          ApiOcrOutcome.pyError "ValueError: not enough values to unpack (expected 5, got 4)"
      | DetectResult.quint _ _ _ breakdown confidence =>
          ApiOcrOutcome.ok text used detected breakdown confidence

/-- Outcome of the `/api/detect` route. -/
inductive ApiDetectOutcome where
  | ok (script : String) (top_count total_matched : Nat)
      (breakdown : List (String × Nat)) (confidence : ℚ)
  | pyError (error : String)
deriving DecidableEq

/-- `api_detect` (`src/app.py` lines 458-463): the route unpacks five values
out of `detect_script_with_confidence`, so a 4-tuple result raises
`ValueError` and no JSON response is built. -/
def api_detect (text : PyStr) : ApiDetectOutcome :=
  match detect_script_with_confidence text with
  | DetectResult.quad _ _ _ _ =>
      ApiDetectOutcome.pyError "ValueError: not enough values to unpack (expected 5, got 4)"
  | DetectResult.quint s tc tm bd cf => ApiDetectOutcome.ok s tc tm bd cf

/-- The per-script counts a text scores against a range list, in declaration
order, keeping only the scripts with a positive count.  Characterizes the
`counts` dict built by the loop of lines 83-87 (script names in the catalog
are pairwise distinct, so every key is inserted at most once and the dict's
insertion order is the catalog's declaration order). -/
def scoredOf (text : PyStr) (rs : List (List (Nat × Nat) × String)) :
    List (String × Nat) :=
  rs.filterMap (fun pr =>
    if 0 < countMatches pr.1 text then some (pr.2, countMatches pr.1 text) else none)

/-- Sum of all per-range match counts (`total_matched`). -/
def totalOf (text : PyStr) (rs : List (List (Nat × Nat) × String)) : Nat :=
  (rs.map (fun pr => countMatches pr.1 text)).sum

/-- The breakdown of a text against the full catalog. -/
def scored (text : PyStr) : List (String × Nat) := scoredOf text UNICODE_RANGES

/-- The two-branch pass-selection rule of `src/app.py` lines 120-128, as a
predicate on the two already-stripped OCR texts (`True` = select pass 2).
The first branch is `len(txt1) > len(txt0)`, the second
`txt1.strip() != "" and txt0.strip() == ""`. -/
def selectPass2 (txt0 txt1 : PyStr) : Bool :=
  if txt0.length < txt1.length then true
  else if strip txt1 ≠ [] ∧ strip txt0 = [] then true
  else false

/-- Modelled from the spec claim: the single-rule formulation
"select pass 2 iff `len(text1) > len(text0)`". -/
def selectPass2Single (txt0 txt1 : PyStr) : Bool :=
  decide (txt0.length < txt1.length)

/-- Image whose default-language OCR pass reads `"नमस"` and whose
language-specific pass reads `"1234"` (longer, so pass 2 is selected). -/
def c4Backend : OcrBackend :=
  ⟨Except.ok [0x928, 0x92E, 0x938], fun _ => Except.ok [49, 50, 51, 52]⟩

/-- Image whose default-language OCR pass reads only whitespace and whose
language-specific pass would read `"नमस्ते"`. -/
def c2Backend : OcrBackend :=
  ⟨Except.ok [32, 10], fun _ => Except.ok [0x928, 0x92E, 0x938, 0x94D, 0x924, 0x947]⟩

/-- Image whose default-language OCR pass reads `"नमस"` and whose
language-specific pass raises. -/
def c6Backend : OcrBackend :=
  ⟨Except.ok [0x928, 0x92E, 0x938], fun _ => Except.error "tesseract crashed"⟩

/-- Image on which the default-language OCR pass itself raises. -/
def c7Backend : OcrBackend :=
  ⟨Except.error "boom", fun _ => Except.ok []⟩

/-- Image whose default-language OCR pass reads `"12."` — non-empty but with
no character of any catalog range. -/
def c9Backend : OcrBackend :=
  ⟨Except.ok [49, 50, 46], fun _ => Except.ok [97, 98]⟩

/-- Inserting a key not yet present in the dict appends it at the end. -/
lemma dictInsertAdd_fresh (k : String) (v : Nat) :
    ∀ acc : List (String × Nat), k ∉ acc.map Prod.fst →
      dictInsertAdd acc k v = acc ++ [(k, v)] := by
  intro acc
  induction acc with
  | nil => intro _; rfl
  | cons p rest ih =>
    intro h
    simp only [List.map_cons, List.mem_cons, not_or] at h
    obtain ⟨h1, h2⟩ := h
    cases p with
    | mk k' v' =>
      simp only [dictInsertAdd, List.cons_append]
      rw [if_neg fun he => h1 he.symm, ih h2]

/-- The counting loop of lines 83-87 builds exactly the declaration-ordered
positive-count dict and the total match count, provided the script names
are distinct and none is already a key of the accumulator. -/
lemma countStep_foldl (text : PyStr) :
    ∀ (rs : List (List (Nat × Nat) × String)) (acc : List (String × Nat)) (t : Nat),
      (rs.map Prod.snd).Nodup →
      (∀ pr ∈ rs, pr.2 ∉ acc.map Prod.fst) →
      rs.foldl (countStep text) (acc, t)
        = (acc ++ scoredOf text rs, t + totalOf text rs) := by
  intro rs
  induction rs with
  | nil => intro acc t _ _; simp [scoredOf, totalOf]
  | cons r rest ih =>
    intro acc t hnd hfresh
    simp only [List.map_cons, List.nodup_cons] at hnd
    obtain ⟨hr, hnd'⟩ := hnd
    simp only [List.foldl_cons]
    by_cases hpos : 0 < countMatches r.1 text
    · have hstep : countStep text (acc, t) r
          = (acc ++ [(r.2, countMatches r.1 text)], t + countMatches r.1 text) := by
        simp only [countStep, if_pos hpos]
        rw [dictInsertAdd_fresh _ _ _ (hfresh r (List.mem_cons_self _ _))]
      rw [hstep, ih _ _ hnd']
      · simp only [scoredOf, totalOf, List.filterMap_cons, List.map_cons,
          List.sum_cons, if_pos hpos]
        rw [List.append_assoc, Nat.add_assoc]
        rfl
      · intro pr hpr
        simp only [List.map_append, List.mem_append, List.map_cons, List.map_nil,
          List.mem_cons, not_or]
        refine ⟨hfresh pr (List.mem_cons_of_mem _ hpr), ?_,
          fun hf => List.not_mem_nil _ hf⟩
        intro he
        exact hr (he ▸ List.mem_map_of_mem Prod.snd hpr)
    · have h0 : countMatches r.1 text = 0 := by omega
      have hstep : countStep text (acc, t) r = (acc, t) := by
        simp only [countStep, if_neg hpos]
      rw [hstep, ih _ _ hnd' (fun pr hpr => hfresh pr (List.mem_cons_of_mem _ hpr))]
      simp [scoredOf, totalOf, h0]

/-- The script names of the catalog are pairwise distinct. -/
lemma unicode_ranges_names_nodup : (UNICODE_RANGES.map Prod.snd).Nodup := by
  decide

/-- On a non-empty text, detection is the core computation applied to the
declaration-ordered breakdown and the total count. -/
lemma detect_unfold (text : PyStr) (h : text ≠ []) :
    detect_script_with_confidence text
      = detectCore (scored text, totalOf text UNICODE_RANGES) := by
  simp only [detect_script_with_confidence, if_neg h]
  rw [countStep_foldl text UNICODE_RANGES [] 0 unicode_ranges_names_nodup
    (by intro pr _; simp)]
  simp [scored]

/-- Python's `max` never returns something smaller than any element. -/
lemma maxByVal_le : ∀ (cs : List (String × Nat)) (best : String × Nat),
    best.2 ≤ (maxByVal best cs).2 ∧ ∀ p ∈ cs, p.2 ≤ (maxByVal best cs).2 := by
  intro cs
  induction cs with
  | nil =>
    intro best
    exact ⟨le_refl _, by intro p hp; exact absurd hp (List.not_mem_nil p)⟩
  | cons x rest ih =>
    intro best
    simp only [maxByVal]
    obtain ⟨h1, h2⟩ := ih (if best.2 < x.2 then x else best)
    have hb : best.2 ≤ (if best.2 < x.2 then x else best).2 := by split <;> omega
    have hx : x.2 ≤ (if best.2 < x.2 then x else best).2 := by split <;> omega
    refine ⟨le_trans hb h1, ?_⟩
    intro p hp
    rcases List.mem_cons.mp hp with rfl | hp'
    · exact le_trans hx h1
    · exact h2 p hp'

/-- Python's `max` keeps the first element attaining the maximum: either the
start value wins, or the winner sits in the list strictly above the start
value and everything before it. -/
lemma maxByVal_first : ∀ (cs : List (String × Nat)) (best : String × Nat),
    maxByVal best cs = best ∨
    (best.2 < (maxByVal best cs).2 ∧
      ∃ l1 l2, cs = l1 ++ (maxByVal best cs) :: l2 ∧
        ∀ p ∈ best :: l1, p.2 < (maxByVal best cs).2) := by
  intro cs
  induction cs with
  | nil => intro best; left; rfl
  | cons x rest ih =>
    intro best
    simp only [maxByVal]
    by_cases hx : best.2 < x.2
    · rw [if_pos hx]
      right
      rcases ih x with h | ⟨hlt, l1, l2, hsplit, hall⟩
      · rw [h]
        refine ⟨hx, [], rest, rfl, ?_⟩
        intro p hp
        rcases List.mem_cons.mp hp with rfl | hp'
        · exact hx
        · exact absurd hp' (List.not_mem_nil p)
      · have hxlt : x.2 < (maxByVal x rest).2 := hall x (List.mem_cons_self _ _)
        refine ⟨lt_trans hx hxlt, x :: l1, l2, ?_, ?_⟩
        · conv_lhs => rw [hsplit]
          rfl
        · intro p hp
          rcases List.mem_cons.mp hp with rfl | hp'
          · exact lt_trans hx hxlt
          · exact hall p hp'
    · rw [if_neg hx]
      rcases ih best with h | ⟨hlt, l1, l2, hsplit, hall⟩
      · left; exact h
      · right
        refine ⟨hlt, x :: l1, l2, ?_, ?_⟩
        · conv_lhs => rw [hsplit]
          rfl
        · intro p hp
          rcases List.mem_cons.mp hp with rfl | hp'
          · exact hall _ (List.mem_cons_self _ _)
          · rcases List.mem_cons.mp hp' with rfl | hp''
            · exact lt_of_le_of_lt (by omega) hlt
            · exact hall _ (List.mem_cons_of_mem _ hp'')

/-- The winner of `max(counts.items(), key=...)` is the first entry of the
dict attaining the maximal count. -/
lemma maxByVal_first_max (best : String × Nat) (cs : List (String × Nat)) :
    ∃ l1 l2, best :: cs = l1 ++ (maxByVal best cs) :: l2 ∧
      (∀ p ∈ l1, p.2 < (maxByVal best cs).2) ∧
      ∀ p ∈ best :: cs, p.2 ≤ (maxByVal best cs).2 := by
  have hle := maxByVal_le cs best
  have hmem : ∀ p ∈ best :: cs, p.2 ≤ (maxByVal best cs).2 := by
    intro p hp
    rcases List.mem_cons.mp hp with he | hp'
    · exact he ▸ hle.1
    · exact hle.2 p hp'
  rcases maxByVal_first cs best with h | ⟨_, l1, l2, hsplit, hall⟩
  · exact ⟨[], cs, by rw [h]; rfl,
      by intro p hp; exact absurd hp (List.not_mem_nil p), hmem⟩
  · refine ⟨best :: l1, l2, ?_, hall, hmem⟩
    conv_lhs => rw [hsplit]
    rfl

/-- A text with no catalog character scores an empty breakdown. -/
lemma scored_eq_nil (text : PyStr) (h : hasCatalogChar text = false) :
    scored text = [] := by
  simp only [scored, scoredOf, List.filterMap_eq_nil_iff]
  intro pr hpr
  rw [if_neg]
  simp only [not_lt, Nat.le_zero, countMatches, List.length_eq_zero,
    List.filter_eq_nil_iff]
  intro c hc hin
  have hcat : hasCatalogChar text = true := by
    simp only [hasCatalogChar, List.any_eq_true]
    exact ⟨c, hc, ⟨pr, hpr, hin⟩⟩
  rw [h] at hcat
  cases hcat

/-- A text that is empty or has no catalog character is detected as the
4-tuple `("ISO", 0, 0, {})` — with no confidence component. -/
lemma detect_quad_of_no_catalog (text : PyStr) (h : hasCatalogChar text = false) :
    detect_script_with_confidence text = DetectResult.quad "ISO" 0 0 [] := by
  by_cases ht : text = []
  · rw [ht]; rfl
  · rw [detect_unfold text ht, scored_eq_nil text h]
    rfl

/-- When the first OCR pass succeeds, `ocr_image_with_smart_lang` never
produces the designed engine-error dictionary. -/
lemma extract_ok_first_pass_not_err (b : OcrBackend) (t0 : PyStr)
    (hok : b.image_to_string = Except.ok t0) (m : String) :
    ocr_image_with_smart_lang (some b) ≠ OcrOutcome.err m := by
  intro hm
  simp only [ocr_image_with_smart_lang, hok] at hm
  split at hm
  · exact OcrOutcome.noConfusion hm
  · split at hm
    · split at hm
      · exact OcrOutcome.noConfusion hm
      · split at hm
        · exact OcrOutcome.noConfusion hm
        · split at hm
          · exact OcrOutcome.noConfusion hm
          · exact OcrOutcome.noConfusion hm
    · exact OcrOutcome.noConfusion hm

/-- Claim C1 (code bug): on the empty string `detect_script_with_confidence`
returns the bare 4-tuple `("ISO", 0, 0, {})` — there is no fifth,
confidence component — and consequently the exposed detect operation
(`/api/detect`, which unpacks five values) raises `ValueError` instead of
returning the sentinel result with `confidence = 0`. -/
theorem detect_empty_returns_four_tuple :
    detect_script_with_confidence [] = DetectResult.quad "ISO" 0 0 [] ∧
    api_detect []
      = ApiDetectOutcome.pyError "ValueError: not enough values to unpack (expected 5, got 4)" :=
  ⟨rfl, rfl⟩

/-- Claim C2 (code bug): for an image whose first OCR pass reads only
whitespace (so the trimmed pass-1 text is empty), `ocr_image_with_smart_lang`
raises `ValueError` at the 5-value unpacking of line 113 before the
selection step is ever reached, instead of selecting pass 2's non-empty
text; `c2Backend`'s second pass would have read the non-empty `"नमस्ते"`. -/
theorem extract_empty_pass1_crashes :
    ocr_image_with_smart_lang (some c2Backend)
      = OcrOutcome.pyError "ValueError: not enough values to unpack (expected 5, got 4)" :=
  rfl

/-- Claim C3 (code bug): on a non-empty string with no catalog character the
result of `detect_script_with_confidence` is again the 4-tuple — it has
`totalMatched = 0` but carries no confidence component at all, so the
invariant "`confidence = 0` iff `totalMatched = 0`" is not satisfiable, and
the 5-value unpacking at every call site raises `ValueError`. -/
theorem detect_no_catalog_returns_four_tuple :
    detect_script_with_confidence [49, 50, 51] = DetectResult.quad "ISO" 0 0 [] ∧
    api_detect [49, 50, 51]
      = ApiDetectOutcome.pyError "ValueError: not enough values to unpack (expected 5, got 4)" :=
  ⟨rfl, rfl⟩

/-- Claim C4 (code bug): for `c4Backend` (pass-1 text `"नमस"`, pass-2 text
`"1234"`, which is longer and therefore selected) the fresh classification
of the final chosen text on line 486 returns a 4-tuple, so `/api/ocr`
raises `ValueError` and reports no breakdown at all. -/
theorem api_ocr_final_reclassification_crashes :
    api_ocr (some c4Backend)
      = ApiOcrOutcome.pyError "ValueError: not enough values to unpack (expected 5, got 4)" :=
  rfl

/-- Claim C5: whenever detection succeeds (5-tuple result), the reported
breakdown is exactly the catalog-declaration-ordered list of positive
per-script counts, and the winning `(script, topCount)` pair is its first
entry attaining the maximal count — so among tied scripts the one declared
earlier in `UNICODE_RANGES` wins, deterministically. -/
theorem detect_tie_break_first_declared (text : PyStr) (s : String) (tc tm : Nat)
    (bd : List (String × Nat)) (cf : ℚ)
    (h : detect_script_with_confidence text = DetectResult.quint s tc tm bd cf) :
    bd = scored text ∧
    ∃ l1 l2, bd = l1 ++ (s, tc) :: l2 ∧ (∀ p ∈ l1, p.2 < tc) ∧ ∀ p ∈ bd, p.2 ≤ tc := by
  by_cases ht : text = []
  · rw [ht] at h
    exact absurd h (by simp [detect_script_with_confidence])
  · rw [detect_unfold text ht] at h
    rcases hs : scored text with _ | ⟨c, cs⟩ <;> rw [hs] at h
    · exact absurd h (by simp [detectCore])
    · simp only [detectCore, DetectResult.quint.injEq] at h
      obtain ⟨e1, e2, e3, e4, e5⟩ := h
      have hm : maxByVal c cs = (s, tc) := by
        rw [Prod.ext_iff]; exact ⟨e1, e2⟩
      refine ⟨e4.symm, ?_⟩
      obtain ⟨l1, l2, hsp, hlt, hle⟩ := maxByVal_first_max c cs
      rw [hm] at hsp hlt hle
      rw [e4] at hsp hle
      exact ⟨l1, l2, hsp, hlt, hle⟩

/-- Witness for C5: on the two-character text `"aअ"` the Devanagari and the
Latin range tie with one character each and the earlier-declared
Devanagari wins. -/
theorem detect_tie_break_first_declared_witness :
    ([("Devanagari", 1), ("ISO", 1)] : List (String × Nat)) = scored [97, 0x905] ∧
    ∃ l1 l2, ([("Devanagari", 1), ("ISO", 1)] : List (String × Nat))
        = l1 ++ ("Devanagari", 1) :: l2 ∧
      (∀ p ∈ l1, p.2 < 1) ∧
      ∀ p ∈ ([("Devanagari", 1), ("ISO", 1)] : List (String × Nat)), p.2 ≤ 1 :=
  detect_tie_break_first_declared [97, 0x905] "Devanagari" 1 2
    [("Devanagari", 1), ("ISO", 1)] (1 / 2) rfl

/-- Claim C6: when the first OCR pass succeeds and classifies (`quint`
result), and every language-specific OCR call raises, the retry's
exception is swallowed and the pass-1 result is returned (pass-1 text,
default language `"eng"`, pass-1 detection) — the function does not
raise. -/
theorem extract_pass2_error_swallowed (b : OcrBackend) (t0raw : PyStr)
    (d : String) (tc tm : Nat) (bd : List (String × Nat)) (cf : ℚ) (e : String)
    (h1 : b.image_to_string = Except.ok t0raw)
    (h2 : detect_script_with_confidence (strip t0raw) = DetectResult.quint d tc tm bd cf)
    (h3 : ∀ l, b.image_to_string_lang l = Except.error e) :
    ocr_image_with_smart_lang (some b) = OcrOutcome.ok (strip t0raw) "eng" d bd := by
  simp only [ocr_image_with_smart_lang, h1, h2]
  by_cases hs : lookupDefault TESS_LANG_SUGGEST d "eng" ≠ "eng"
  · rw [if_pos hs, h3]
  · rw [if_neg hs]

/-- Witness for C6: pass 1 reads `"नमस"`, the suggested-language pass
raises, and the pass-1 result is returned. -/
theorem extract_pass2_error_swallowed_witness :
    ocr_image_with_smart_lang (some c6Backend)
      = OcrOutcome.ok (strip [0x928, 0x92E, 0x938]) "eng" "Devanagari"
          [("Devanagari", 3)] :=
  extract_pass2_error_swallowed c6Backend [0x928, 0x92E, 0x938] "Devanagari" 3 3
    [("Devanagari", 3)] (3 / 3) "tesseract crashed" rfl rfl (fun _ => rfl)

/-- Claim C7: with no OCR backend the function returns the
unavailable-backend error; when the first pass raises, the engine error is
returned, the result does not depend on the language-specific pass at all
(no second pass is attempted), and — exactly-when — the engine-error
dictionary occurs iff the first pass raised. -/
theorem extract_first_pass_failure_semantics (b : OcrBackend) (e : String)
    (h : b.image_to_string = Except.error e) :
    ocr_image_with_smart_lang none
      = OcrOutcome.err "pytesseract not available. Install pytesseract and Tesseract." ∧
    ocr_image_with_smart_lang (some b)
      = OcrOutcome.err ("Tesseract initial OCR failed: " ++ e) ∧
    (∀ g : String → Except String PyStr,
      ocr_image_with_smart_lang (some ⟨b.image_to_string, g⟩)
        = OcrOutcome.err ("Tesseract initial OCR failed: " ++ e)) ∧
    ∀ b2 : OcrBackend,
      (∃ m, ocr_image_with_smart_lang (some b2)
          = OcrOutcome.err ("Tesseract initial OCR failed: " ++ m))
      ↔ ∃ m, b2.image_to_string = Except.error m := by
  refine ⟨rfl, ?_, ?_, ?_⟩
  · simp only [ocr_image_with_smart_lang, h]
  · intro g
    simp only [ocr_image_with_smart_lang, h]
  · intro b2
    constructor
    · rintro ⟨m, hm⟩
      cases hok : b2.image_to_string with
      | error m' => exact ⟨m', rfl⟩
      | ok t0 => exact absurd hm (extract_ok_first_pass_not_err b2 t0 hok _)
    · rintro ⟨m, hm⟩
      refine ⟨m, ?_⟩
      simp only [ocr_image_with_smart_lang, hm]

/-- Witness for C7: a backend whose initial pass raises `"boom"`. -/
theorem extract_first_pass_failure_semantics_witness :
    ocr_image_with_smart_lang (some c7Backend)
      = OcrOutcome.err ("Tesseract initial OCR failed: " ++ "boom") :=
  (extract_first_pass_failure_semantics c7Backend "boom" rfl).2.1

/-- Claim C8 (code bug): with the sentinel hint `"ISO"` and a text with no
catalog character (here `"123"`), `perform_transliteration` raises
`ValueError` at the 5-value unpacking of line 147 instead of delegating the
unchanged hint to the backend. -/
theorem resolve_iso_hint_no_catalog_crashes :
    perform_transliteration true "ISO" "Tamil" [49, 50, 51]
      = TranslitOutcome.pyError "ValueError: not enough values to unpack (expected 5, got 4)" :=
  rfl

/-- Claim C9: whenever the first OCR pass succeeds but its trimmed text is
empty or contains no character of any catalog range, the detection call on
line 113 yields a 4-tuple, the 5-value unpacking raises `ValueError`, and
`ocr_image_with_smart_lang` produces neither a success dictionary nor a
designed error dictionary. -/
theorem extract_unclassifiable_pass1_raises (b : OcrBackend) (t0raw : PyStr)
    (h1 : b.image_to_string = Except.ok t0raw)
    (h2 : hasCatalogChar (strip t0raw) = false) :
    ocr_image_with_smart_lang (some b)
      = OcrOutcome.pyError "ValueError: not enough values to unpack (expected 5, got 4)" := by
  simp only [ocr_image_with_smart_lang, h1, detect_quad_of_no_catalog _ h2]

/-- Witness for C9: pass 1 reads the non-empty `"12."`, which contains no
catalog character. -/
theorem extract_unclassifiable_pass1_raises_witness :
    ocr_image_with_smart_lang (some c9Backend)
      = OcrOutcome.pyError "ValueError: not enough values to unpack (expected 5, got 4)" :=
  extract_unclassifiable_pass1_raises c9Backend [49, 50, 46] rfl rfl

/-- Claim C10: on already-trimmed texts the two-branch selection rule of
lines 120-128 coincides with the single rule
"select pass 2 iff `len(text1) > len(text0)`": the second branch is
subsumed by the first. -/
theorem select_rule_equiv (t0 t1 : PyStr)
    (h0 : strip t0 = t0) (h1 : strip t1 = t1) :
    selectPass2 t0 t1 = selectPass2Single t0 t1 := by
  simp only [selectPass2, selectPass2Single]
  by_cases hlt : t0.length < t1.length
  · rw [if_pos hlt]
    simp [hlt]
  · rw [if_neg hlt, if_neg]
    · simp [hlt]
    · rintro ⟨hne, he⟩
      rw [h1] at hne
      rw [h0] at he
      apply hlt
      rw [he]
      simpa using List.length_pos.mpr hne

/-- Witness for C10: both formulations select pass 1 on the trimmed pair
`("a", "")`. -/
theorem select_rule_equiv_witness :
    selectPass2 [97] [] = selectPass2Single [97] [] :=
  select_rule_equiv [97] [] rfl rfl

end SignTranslation
